import Mathlib

/-!
Verification of the observable contract of `src/functions/api/messages.js`:
three serverless handlers (`postMessage`, `getChat`, `deleteChat`) over a
hierarchical document store (`users/{userId}/chats/{chatId}/messages`).

The store is modelled as a list of stored message documents together with a
counter for store-generated identifiers and a server clock for
server-assigned timestamps.  Each handler is a pure function from its input
and the store to an `Outcome`: the result (or a structured error, embedding
`functions.https.HttpsError`), the store after the call, and a trace of the
document-store accesses the handler performed.  A validation failure raises
before any store access, so its trace is empty and its store is unchanged.
Each handler wraps its whole body in a try/catch whose catch rethrows any
caught error — the validation error included — as a new `HttpsError` with
code "unknown" and a handler-specific message, the original message
surviving only as the details argument; the error a caller observes for a
missing field therefore carries code "unknown", never "invalid-argument".

The `chatId` field of `postMessage` is modelled as a small JavaScript value
type (`JVal`), because the code applies JavaScript truthiness to it and
writes `chatId.toString()` into the document path while returning the raw
value; query parameters of the HTTP handlers are modelled as
`Option String` (present string or absent), with JavaScript truthiness:
absent and the empty string are both falsy.
-/

/-- A JavaScript value as it may appear in the `chatId` field of the
`postMessage` payload: `undefined`, a string, or a number. -/
inductive JVal where
  | undef
  | vstr (s : String)
  | vnum (n : Int)
deriving DecidableEq, Repr

/-- JavaScript truthiness of a `JVal`: `undefined`, the empty string and the
number `0` are falsy. -/
def JVal.truthy : JVal → Bool
  | .undef => false
  | .vstr s => !s.isEmpty
  | .vnum n => n != 0

/-- JavaScript `toString()` of a `JVal`, as used for the document path
segment `.doc(newChatId.toString())`. -/
def JVal.toStr : JVal → String
  | .undef => "undefined"
  | .vstr s => s
  | .vnum n => toString n

/-- JavaScript truthiness of an optional string (a field that is either
absent/`undefined` or a string): absent and `""` are falsy. -/
def strTruthy : Option String → Bool
  | none => false
  | some s => !s.isEmpty

/-- The error object thrown by the handlers, embedding
`functions.https.HttpsError (code, message, details)`. -/
structure HttpsError where
  code : String
  message : String
  details : Option String
deriving DecidableEq, Repr

/-- The fields of a message document as written by `postMessage` and
returned by `doc.data()` in `getChat`: `{senderId, text, timestamp}` with a
server-assigned timestamp. -/
structure MsgDoc where
  senderId : String
  text : String
  timestamp : Nat
deriving DecidableEq, Repr

/-- One document in the store, at path
`users/{userId}/chats/{chatId}/messages/{messageId}`. -/
structure StoredMsg where
  userId : String
  chatId : String
  messageId : String
  data : MsgDoc
deriving DecidableEq, Repr

/-- The document store: the stored message documents in insertion order,
the counter feeding store-generated document identifiers, and the server
clock feeding `FieldValue.serverTimestamp()`. -/
structure Store where
  docs : List StoredMsg
  nextId : Nat
  clock : Nat
deriving DecidableEq, Repr

/-- A store-generated document identifier (`.doc().id` / `.add`). -/
def mkId (n : Nat) : String := "autoid" ++ toString n

/-- Path of the message collection of one chat of one user. -/
def chatPath (uid cid : String) : String :=
  "users/" ++ uid ++ "/chats/" ++ cid ++ "/messages"

/-- Path of one message document. -/
def msgPath (uid cid mid : String) : String :=
  chatPath uid cid ++ "/" ++ mid

/-- One document-store access performed by a handler. -/
inductive StoreOp where
  | read (path : String)
  | write (path : String)
  | del (path : String)
  | commit
deriving DecidableEq, Repr

/-- Whether a store access is a read. -/
def StoreOp.isRead : StoreOp → Bool
  | .read _ => true
  | _ => false

/-- Whether a store access is a batched delete of one document. -/
def StoreOp.isDel : StoreOp → Bool
  | .del _ => true
  | _ => false

/-- Whether a store access is a batch commit. -/
def StoreOp.isCommit : StoreOp → Bool
  | .commit => true
  | _ => false

/-- Number of batched single-document deletes in a trace. -/
def delCount (tr : List StoreOp) : Nat := (tr.filter StoreOp.isDel).length

/-- Number of batch commits in a trace. -/
def commitCount (tr : List StoreOp) : Nat := (tr.filter StoreOp.isCommit).length

/-- The outcome of one handler invocation: the value returned to the caller
(or the `HttpsError` thrown), the store after the call, and the trace of
store accesses performed. -/
structure Outcome (α : Type) where
  result : Except HttpsError α
  store : Store
  trace : List StoreOp
deriving Repr

/-- The error code of a result, `none` on success. -/
def errCode {α : Type} : Except HttpsError α → Option String
  | .error e => some e.code
  | .ok _ => none

/-- The payload of `postMessage`: `{userId, text, senderId, chatId}`, each
field possibly absent; `chatId` kept as a raw JavaScript value. -/
structure PostData where
  userId : Option String
  text : Option String
  senderId : Option String
  chatId : JVal
deriving DecidableEq, Repr

/-- The success value of `postMessage`:
`{status: "new message", chatId, messageId}` with the raw `chatId`. -/
structure PostResult where
  status : String
  chatId : JVal
  messageId : String
deriving DecidableEq, Repr

/-- The query string of the HTTP handlers: `userId` and `chatId`, each a
string or absent. -/
structure Query where
  userId : Option String
  chatId : Option String
deriving DecidableEq, Repr

/-- The success value of `getChat`: HTTP status 200 and the JSON body
`{status: "successfully got chat messages", messages}`. -/
structure GetResult where
  httpStatus : Nat
  status : String
  messages : List MsgDoc
deriving DecidableEq, Repr

/-- The success value of `deleteChat`: HTTP status 200 and the JSON body
`{status: "successfully deleted chat messages"}`. -/
structure DeleteResult where
  httpStatus : Nat
  status : String
deriving DecidableEq, Repr

/-- The `invalid-argument` error thrown by `postMessage` on a missing
required field. -/
def postFieldsErr : HttpsError :=
  ⟨"invalid-argument", "Required fields (text or IDs for sender or receiver) are missing", none⟩

/-- The `invalid-argument` error thrown by `getChat` and `deleteChat` on a
missing query parameter. -/
def queryFieldsErr : HttpsError :=
  ⟨"invalid-argument", "Required fields (IDs for user and chat) are missing", none⟩

/-- Message of the `unknown` error thrown by the catch block of
`postMessage`. -/
def postCatchMsg : String := "An error occurred while adding the message"

/-- Message of the `unknown` error thrown by the catch block of `getChat`. -/
def getCatchMsg : String := "An error occurred while get a specific chat"

/-- Message of the `unknown` error thrown by the catch block of
`deleteChat`. -/
def deleteCatchMsg : String := "An error occurred while deleted the messages"

/-- Rewrapping performed by each handler's catch block: any error thrown in
the body — the validation error included — is caught and rethrown as a new
error with code "unknown" and the handler's own message, the original
message surviving only as the details argument. -/
def catchRewrap (msg : String) (e : HttpsError) : HttpsError :=
  HttpsError.mk "unknown" msg (some e.message)

/-- Whether a stored document lies in the message collection of chat `cid`
of user `uid`. -/
def inChat (uid cid : String) (d : StoredMsg) : Bool :=
  d.userId == uid && d.chatId == cid

/-- The snapshot of the message collection of chat `cid` of user `uid`, in
store order. -/
def chatDocs (uid cid : String) (docs : List StoredMsg) : List StoredMsg :=
  docs.filter (inChat uid cid)

/-- Handler `postMessage`: validates `text`, `senderId`, `userId` by truthiness;
generates a chat identifier when `chatId` is falsy; adds one message
document `{senderId, text, timestamp: serverTimestamp}` under
`users/{userId}/chats/{chatId.toString()}/messages`; returns
`{status: "new message", chatId, messageId}` with the raw chat identifier;
the validation error is swallowed by the handler's own catch block and the
caller receives it rewrapped with code "unknown". -/
def postMessage (data : PostData) (s : Store) : Outcome PostResult :=
  if !strTruthy data.text || !strTruthy data.senderId || !strTruthy data.userId then
    ⟨.error (catchRewrap postCatchMsg postFieldsErr), s, []⟩
  else
    let uid := data.userId.getD ""
    let newChatId := if data.chatId.truthy then data.chatId else JVal.vstr (mkId s.nextId)
    let n1 := if data.chatId.truthy then s.nextId else s.nextId + 1
    let mid := mkId n1
    let doc : MsgDoc := ⟨data.senderId.getD "", data.text.getD "", s.clock⟩
    let stored : StoredMsg := ⟨uid, newChatId.toStr, mid, doc⟩
    ⟨.ok ⟨"new message", newChatId, mid⟩,
     ⟨s.docs ++ [stored], n1 + 1, s.clock + 1⟩,
     [.write (msgPath uid newChatId.toStr mid)]⟩

/-- Handler `getChat`: validates `userId` and `chatId` by truthiness; reads the full
message collection of the chat; returns HTTP 200 with
`{status: "successfully got chat messages", messages}` where each entry is
the raw document data; the validation error is swallowed by the handler's
own catch block and surfaces rewrapped with code "unknown". -/
def getChat (q : Query) (s : Store) : Outcome GetResult :=
  if !strTruthy q.userId || !strTruthy q.chatId then
    ⟨.error (catchRewrap getCatchMsg queryFieldsErr), s, []⟩
  else
    let uid := q.userId.getD ""
    let cid := q.chatId.getD ""
    let snapshot := chatDocs uid cid s.docs
    ⟨.ok ⟨200, "successfully got chat messages", snapshot.map (·.data)⟩,
     s,
     [.read (chatPath uid cid)]⟩

/-- Handler `deleteChat`: validates `userId` and `chatId` by truthiness; reads the
full message collection of the chat; deletes every document of the snapshot
in a single batch commit; returns HTTP 200 with
`{status: "successfully deleted chat messages"}`; the validation error is
swallowed by the handler's own catch block and surfaces rewrapped with
code "unknown". -/
def deleteChat (q : Query) (s : Store) : Outcome DeleteResult :=
  if !strTruthy q.userId || !strTruthy q.chatId then
    ⟨.error (catchRewrap deleteCatchMsg queryFieldsErr), s, []⟩
  else
    let uid := q.userId.getD ""
    let cid := q.chatId.getD ""
    let snapshot := chatDocs uid cid s.docs
    ⟨.ok ⟨200, "successfully deleted chat messages"⟩,
     ⟨s.docs.filter (fun d => !inChat uid cid d), s.nextId, s.clock⟩,
     .read (chatPath uid cid) :: snapshot.map (fun d => .del (msgPath uid cid d.messageId)) ++ [.commit]⟩

/-- An empty store, used in concrete instantiations. -/
def store0 : Store := Store.mk [] 0 0

/-- A store holding one message in chat `c` of user `u`, used in concrete
instantiations. -/
def store1 : Store :=
  Store.mk [StoredMsg.mk "u" "c" "m0" (MsgDoc.mk "alice" "hi" 0)] 5 7

/-! ### Helper lemmas -/

/-- A store-generated identifier is never the empty string. -/
theorem mkId_isEmpty (n : Nat) : (mkId n).isEmpty = false := by
  rw [Bool.eq_false_iff]
  intro h
  have h2 : mkId n = "" := (String.isEmpty_iff _).mp h
  have h3 := congrArg String.length h2
  rw [mkId, String.length_append] at h3
  have h4 : "autoid".length = 6 := rfl
  have h5 : "".length = 0 := rfl
  rw [h4, h5] at h3
  omega

/-- A store-generated identifier passes truthiness validation. -/
theorem strTruthy_mkId (n : Nat) : strTruthy (some (mkId n)) = true := by
  simp [strTruthy, mkId_isEmpty]

/-- Filtering by a predicate no element of the list satisfies keeps the
whole list when filtering by its negation. -/
theorem filter_not_of_filter_nil {α : Type} (p : α → Bool) (l : List α)
    (h : l.filter p = []) : l.filter (fun a => !p a) = l := by
  induction l with
  | nil => rfl
  | cons a l ih =>
    rw [List.filter_cons] at h ⊢
    by_cases ha : p a = true
    · simp [ha] at h
    · rw [Bool.not_eq_true] at ha
      simp only [ha, if_neg] at h
      simp [ha, ih h]

/-- Filtering is idempotent. -/
theorem filter_idem {α : Type} (p : α → Bool) (l : List α) :
    (l.filter p).filter p = l.filter p := by
  simp [List.filter_filter]

/-- Filtering by a predicate after filtering by its negation yields nothing. -/
theorem filter_after_filter_not {α : Type} (p : α → Bool) (l : List α) :
    (l.filter (fun a => !p a)).filter p = [] := by
  simp [List.filter_filter]

/-- A trace made of batched deletes counts one delete per element. -/
theorem delCount_map_del (l : List StoredMsg) (f : StoredMsg → String) :
    delCount (l.map fun d => StoreOp.del (f d)) = l.length := by
  induction l with
  | nil => rfl
  | cons a l ih =>
    simp only [List.map_cons, delCount, List.filter_cons, StoreOp.isDel,
      List.length_cons] at ih ⊢
    simp [ih]

/-- Outcome of `getChat` when validation fails. -/
theorem getChat_invalid_outcome (q : Query) (s : Store)
    (hcond : (!strTruthy q.userId || !strTruthy q.chatId) = true) :
    getChat q s = Outcome.mk (.error (catchRewrap getCatchMsg queryFieldsErr)) s [] := by
  unfold getChat
  rw [if_pos hcond]

/-- Outcome of `deleteChat` when validation fails. -/
theorem deleteChat_invalid_outcome (q : Query) (s : Store)
    (hcond : (!strTruthy q.userId || !strTruthy q.chatId) = true) :
    deleteChat q s = Outcome.mk (.error (catchRewrap deleteCatchMsg queryFieldsErr)) s [] := by
  unfold deleteChat
  rw [if_pos hcond]

/-! ### Claim theorems -/

/-- C1 (code bug): for every input in which `text`, `senderId`, or `userId`
is missing or falsy, `postMessage` rejects the input with no store access
and no document written — but the error that reaches the caller carries
code "unknown", not the "invalid-argument" the claim states: the validation
error is caught by the handler's own catch block and rethrown rewrapped,
its message surviving only as the details field. -/
theorem postMessage_missing_field_unknown_code (data : PostData) (s : Store)
    (h : strTruthy data.text = false ∨ strTruthy data.senderId = false ∨
      strTruthy data.userId = false) :
    (postMessage data s).result = .error (catchRewrap postCatchMsg postFieldsErr) ∧
    errCode (postMessage data s).result ≠ some "invalid-argument" ∧
    errCode (postMessage data s).result = some "unknown" ∧
    (postMessage data s).store = s ∧ (postMessage data s).trace = [] := by
  have hcond :
      (!strTruthy data.text || !strTruthy data.senderId || !strTruthy data.userId) = true := by
    rcases h with h | h | h <;> simp [h]
  unfold postMessage
  rw [if_pos hcond]
  refine ⟨rfl, ?_, rfl, rfl, rfl⟩
  simp [errCode, catchRewrap]

/-- Witness for C1 at a concrete input with `text` missing. -/
theorem postMessage_missing_field_unknown_code_witness :
    (strTruthy (PostData.mk (some "u") none (some "alice") JVal.undef).text = false ∨
      strTruthy (PostData.mk (some "u") none (some "alice") JVal.undef).senderId = false ∨
      strTruthy (PostData.mk (some "u") none (some "alice") JVal.undef).userId = false) ∧
    ((postMessage (PostData.mk (some "u") none (some "alice") JVal.undef)
        (Store.mk [] 0 0)).result = .error (catchRewrap postCatchMsg postFieldsErr) ∧
      errCode (postMessage (PostData.mk (some "u") none (some "alice") JVal.undef)
        (Store.mk [] 0 0)).result ≠ some "invalid-argument" ∧
      errCode (postMessage (PostData.mk (some "u") none (some "alice") JVal.undef)
        (Store.mk [] 0 0)).result = some "unknown" ∧
      (postMessage (PostData.mk (some "u") none (some "alice") JVal.undef)
        (Store.mk [] 0 0)).store = Store.mk [] 0 0 ∧
      (postMessage (PostData.mk (some "u") none (some "alice") JVal.undef)
        (Store.mk [] 0 0)).trace = []) :=
  ⟨Or.inl rfl,
    postMessage_missing_field_unknown_code
      (PostData.mk (some "u") none (some "alice") JVal.undef)
      (Store.mk [] 0 0) (Or.inl rfl)⟩

/-- C2 (code bug): for every `getChat` or `deleteChat` call whose query is
missing `userId` or `chatId` (by truthiness), the operation rejects the
request with no store access (empty trace, so neither a read nor a write)
and an unchanged store — but the error that reaches the caller carries
code "unknown", not the "invalid-argument" the claim states: each handler
catch block rewraps its own validation error before it escapes. -/
theorem query_missing_field_unknown_code (q : Query) (s : Store)
    (h : strTruthy q.userId = false ∨ strTruthy q.chatId = false) :
    ((getChat q s).result = .error (catchRewrap getCatchMsg queryFieldsErr) ∧
      errCode (getChat q s).result ≠ some "invalid-argument" ∧
      errCode (getChat q s).result = some "unknown" ∧
      (getChat q s).store = s ∧ (getChat q s).trace = []) ∧
    ((deleteChat q s).result = .error (catchRewrap deleteCatchMsg queryFieldsErr) ∧
      errCode (deleteChat q s).result ≠ some "invalid-argument" ∧
      errCode (deleteChat q s).result = some "unknown" ∧
      (deleteChat q s).store = s ∧ (deleteChat q s).trace = []) := by
  have hcond : (!strTruthy q.userId || !strTruthy q.chatId) = true := by
    rcases h with h | h <;> simp [h]
  rw [getChat_invalid_outcome q s hcond, deleteChat_invalid_outcome q s hcond]
  refine ⟨⟨rfl, ?_, rfl, rfl, rfl⟩, ⟨rfl, ?_, rfl, rfl, rfl⟩⟩ <;> simp [errCode, catchRewrap]

/-- Witness for C2 at a concrete query with `chatId` missing. -/
theorem query_missing_field_unknown_code_witness :
    (strTruthy (Query.mk (some "u") none).userId = false ∨
      strTruthy (Query.mk (some "u") none).chatId = false) ∧
    (((getChat (Query.mk (some "u") none) (Store.mk [] 0 0)).result =
        .error (catchRewrap getCatchMsg queryFieldsErr) ∧
      errCode (getChat (Query.mk (some "u") none) (Store.mk [] 0 0)).result ≠
        some "invalid-argument" ∧
      errCode (getChat (Query.mk (some "u") none) (Store.mk [] 0 0)).result =
        some "unknown" ∧
      (getChat (Query.mk (some "u") none) (Store.mk [] 0 0)).store = Store.mk [] 0 0 ∧
      (getChat (Query.mk (some "u") none) (Store.mk [] 0 0)).trace = []) ∧
      ((deleteChat (Query.mk (some "u") none) (Store.mk [] 0 0)).result =
        .error (catchRewrap deleteCatchMsg queryFieldsErr) ∧
      errCode (deleteChat (Query.mk (some "u") none) (Store.mk [] 0 0)).result ≠
        some "invalid-argument" ∧
      errCode (deleteChat (Query.mk (some "u") none) (Store.mk [] 0 0)).result =
        some "unknown" ∧
      (deleteChat (Query.mk (some "u") none) (Store.mk [] 0 0)).store = Store.mk [] 0 0 ∧
      (deleteChat (Query.mk (some "u") none) (Store.mk [] 0 0)).trace = [])) :=
  ⟨Or.inr rfl,
    query_missing_field_unknown_code (Query.mk (some "u") none) (Store.mk [] 0 0)
      (Or.inr rfl)⟩

/-- C7: `getChat` has no side effects: for every request, successful or
failed, the store after the call equals the store before it, and every
store access in its trace is a read. -/
theorem getChat_read_only (q : Query) (s : Store) :
    (getChat q s).store = s ∧ (getChat q s).trace.all StoreOp.isRead = true := by
  unfold getChat
  split <;> simp [StoreOp.isRead]

/-- C9: for every `getChat` or `deleteChat` call in which `userId` or
`chatId` is present but equal to the empty string, the handler rejects the
request in exactly the validation branch a missing parameter takes —
producing the very outcome of a query with both parameters absent: the
same thrown (catch-rewrapped) error, an unchanged store, and an empty
access trace, so the rejection precedes any store access; validation is by
truthiness, not by presence. -/
theorem empty_param_rejected_like_missing (q : Query) (s : Store)
    (h : q.userId = some "" ∨ q.chatId = some "") :
    getChat q s = getChat (Query.mk none none) s ∧
    deleteChat q s = deleteChat (Query.mk none none) s ∧
    getChat q s = Outcome.mk (.error (catchRewrap getCatchMsg queryFieldsErr)) s [] ∧
    deleteChat q s = Outcome.mk (.error (catchRewrap deleteCatchMsg queryFieldsErr)) s [] := by
  have he : "".isEmpty = true := rfl
  have hcond : (!strTruthy q.userId || !strTruthy q.chatId) = true := by
    rcases h with h | h <;> rw [h] <;> simp [strTruthy, he]
  have hg := getChat_invalid_outcome q s hcond
  have hd := deleteChat_invalid_outcome q s hcond
  have hg0 := getChat_invalid_outcome (Query.mk none none) s rfl
  have hd0 := deleteChat_invalid_outcome (Query.mk none none) s rfl
  exact ⟨hg.trans hg0.symm, hd.trans hd0.symm, hg, hd⟩

/-- Witness for C9 at a concrete query with `userId` present but empty. -/
theorem empty_param_rejected_like_missing_witness :
    ((Query.mk (some "") (some "c")).userId = some "" ∨
      (Query.mk (some "") (some "c")).chatId = some "") ∧
    (getChat (Query.mk (some "") (some "c")) (Store.mk [] 0 0) =
      getChat (Query.mk none none) (Store.mk [] 0 0) ∧
    deleteChat (Query.mk (some "") (some "c")) (Store.mk [] 0 0) =
      deleteChat (Query.mk none none) (Store.mk [] 0 0) ∧
    getChat (Query.mk (some "") (some "c")) (Store.mk [] 0 0) =
      Outcome.mk (.error (catchRewrap getCatchMsg queryFieldsErr)) (Store.mk [] 0 0) [] ∧
    deleteChat (Query.mk (some "") (some "c")) (Store.mk [] 0 0) =
      Outcome.mk (.error (catchRewrap deleteCatchMsg queryFieldsErr)) (Store.mk [] 0 0) []) :=
  ⟨Or.inl rfl,
    empty_param_rejected_like_missing (Query.mk (some "") (some "c")) (Store.mk [] 0 0)
      (Or.inl rfl)⟩

/-- Outcome of `postMessage` when validation passes, fully explicit. -/
theorem postMessage_valid_eq (data : PostData) (s : Store)
    (ht : strTruthy data.text = true) (hs : strTruthy data.senderId = true)
    (hu : strTruthy data.userId = true) :
    postMessage data s =
      Outcome.mk
        (.ok (PostResult.mk "new message"
          (if data.chatId.truthy then data.chatId else JVal.vstr (mkId s.nextId))
          (mkId (if data.chatId.truthy then s.nextId else s.nextId + 1))))
        (Store.mk
          (s.docs ++ [StoredMsg.mk (data.userId.getD "")
            (if data.chatId.truthy then data.chatId else JVal.vstr (mkId s.nextId)).toStr
            (mkId (if data.chatId.truthy then s.nextId else s.nextId + 1))
            (MsgDoc.mk (data.senderId.getD "") (data.text.getD "") s.clock)])
          ((if data.chatId.truthy then s.nextId else s.nextId + 1) + 1)
          (s.clock + 1))
        [StoreOp.write (msgPath (data.userId.getD "")
          (if data.chatId.truthy then data.chatId else JVal.vstr (mkId s.nextId)).toStr
          (mkId (if data.chatId.truthy then s.nextId else s.nextId + 1)))] := by
  unfold postMessage
  rw [if_neg (by simp [ht, hs, hu])]

/-- Outcome of `getChat` when validation passes, fully explicit. -/
theorem getChat_valid_eq (uid cid : String) (s : Store)
    (hu : uid.isEmpty = false) (hc : cid.isEmpty = false) :
    getChat (Query.mk (some uid) (some cid)) s =
      Outcome.mk
        (.ok (GetResult.mk 200 "successfully got chat messages"
          ((chatDocs uid cid s.docs).map (·.data))))
        s
        [StoreOp.read (chatPath uid cid)] := by
  unfold getChat
  rw [if_neg (by simp [strTruthy, hu, hc])]
  rfl

/-- Outcome of `deleteChat` when validation passes, fully explicit. -/
theorem deleteChat_valid_eq (uid cid : String) (s : Store)
    (hu : uid.isEmpty = false) (hc : cid.isEmpty = false) :
    deleteChat (Query.mk (some uid) (some cid)) s =
      Outcome.mk
        (.ok (DeleteResult.mk 200 "successfully deleted chat messages"))
        (Store.mk (s.docs.filter (fun d => !inChat uid cid d)) s.nextId s.clock)
        (StoreOp.read (chatPath uid cid) ::
          (chatDocs uid cid s.docs).map (fun d => StoreOp.del (msgPath uid cid d.messageId)) ++
          [StoreOp.commit]) := by
  unfold deleteChat
  rw [if_neg (by simp [strTruthy, hu, hc])]
  rfl

/-- Appending a document of another chat does not change a chat snapshot. -/
theorem chatDocs_append_other (uid cid : String) (l : List StoredMsg) (d : StoredMsg)
    (hd : inChat uid cid d = false) :
    chatDocs uid cid (l ++ [d]) = chatDocs uid cid l := by
  simp [chatDocs, List.filter_append, List.filter_cons, hd]

/-- Every element of a trace of batched deletes is a delete. -/
theorem filter_isDel_map (l : List StoredMsg) (f : StoredMsg → String) :
    (l.map fun d => StoreOp.del (f d)).filter StoreOp.isDel =
      l.map fun d => StoreOp.del (f d) := by
  induction l with
  | nil => rfl
  | cons a l ih => simp [List.filter_cons, StoreOp.isDel, ih]

/-- A trace of batched deletes holds no commit. -/
theorem filter_isCommit_map (l : List StoredMsg) (f : StoredMsg → String) :
    (l.map fun d => StoreOp.del (f d)).filter StoreOp.isCommit = [] := by
  induction l with
  | nil => rfl
  | cons a l ih => simp [List.filter_cons, StoreOp.isCommit, ih]

/-- The trace of a successful `deleteChat` holds one delete per snapshot
document. -/
theorem delCount_del_trace (p : String) (l : List StoredMsg) (f : StoredMsg → String) :
    delCount (StoreOp.read p :: (l.map fun d => StoreOp.del (f d)) ++ [StoreOp.commit]) =
      l.length := by
  simp [delCount, List.filter_cons, StoreOp.isDel, List.filter_append, filter_isDel_map]

/-- The trace of a successful `deleteChat` holds exactly one commit. -/
theorem commitCount_del_trace (p : String) (l : List StoredMsg) (f : StoredMsg → String) :
    commitCount (StoreOp.read p :: (l.map fun d => StoreOp.del (f d)) ++ [StoreOp.commit]) =
      1 := by
  simp [commitCount, List.filter_cons, StoreOp.isCommit, List.filter_append, filter_isCommit_map]

/-- A truthy optional string is a present non-empty string. -/
theorem strTruthy_eq_some (o : Option String) (h : strTruthy o = true) :
    ∃ u, o = some u ∧ u.isEmpty = false := by
  cases hx : o with
  | none => rw [hx] at h; simp [strTruthy] at h
  | some u =>
    refine ⟨u, rfl, ?_⟩
    rw [hx] at h
    simpa [strTruthy] using h

/-- C3: for every input with non-empty `userId`, `text` and `senderId`, a
successful `postMessage` appends exactly one new document to the store —
belonging to the posting user, with fields `{senderId, text}` from the
input and the server-assigned timestamp — and returns
`{status: "new message", chatId, messageId}` where the document lies under
the returned chat identifier (its string form) and `messageId` is the
identifier of that document; the single store access is the write of that
document at `users/{userId}/chats/{chatId}/messages`. -/
theorem postMessage_creates_one_doc (data : PostData) (s : Store)
    (ht : strTruthy data.text = true) (hs : strTruthy data.senderId = true)
    (hu : strTruthy data.userId = true) :
    ∃ d : StoredMsg,
      (postMessage data s).store.docs = s.docs ++ [d] ∧
      d.userId = data.userId.getD "" ∧
      d.data = MsgDoc.mk (data.senderId.getD "") (data.text.getD "") s.clock ∧
      ∃ c : JVal,
        (postMessage data s).result = .ok (PostResult.mk "new message" c d.messageId) ∧
        d.chatId = c.toStr ∧
        (postMessage data s).trace = [StoreOp.write (msgPath d.userId d.chatId d.messageId)] := by
  rw [postMessage_valid_eq data s ht hs hu]
  exact ⟨_, rfl, rfl, rfl, _, rfl, rfl, rfl⟩

/-- Witness for C3 at a concrete valid input. -/
theorem postMessage_creates_one_doc_witness :
    (strTruthy (PostData.mk (some "u") (some "hi") (some "alice") JVal.undef).text = true ∧
     strTruthy (PostData.mk (some "u") (some "hi") (some "alice") JVal.undef).senderId = true ∧
     strTruthy (PostData.mk (some "u") (some "hi") (some "alice") JVal.undef).userId = true) ∧
    (∃ d : StoredMsg,
      (postMessage (PostData.mk (some "u") (some "hi") (some "alice") JVal.undef)
        store0).store.docs = store0.docs ++ [d] ∧
      d.userId = "u" ∧
      d.data = MsgDoc.mk "alice" "hi" 0 ∧
      ∃ c : JVal,
        (postMessage (PostData.mk (some "u") (some "hi") (some "alice") JVal.undef)
          store0).result = .ok (PostResult.mk "new message" c d.messageId) ∧
        d.chatId = c.toStr ∧
        (postMessage (PostData.mk (some "u") (some "hi") (some "alice") JVal.undef)
          store0).trace = [StoreOp.write (msgPath d.userId d.chatId d.messageId)]) :=
  ⟨⟨rfl, rfl, rfl⟩,
    postMessage_creates_one_doc (PostData.mk (some "u") (some "hi") (some "alice") JVal.undef)
      store0 rfl rfl rfl⟩

/-- C10: for every valid input whose `chatId` is present and truthy, a
successful `postMessage` returns the input `chatId` unchanged — the same
raw value, not its stringification — while the document written to the
store carries the path segment `chatId.toString()`. -/
theorem postMessage_chatId_unchanged (data : PostData) (s : Store)
    (ht : strTruthy data.text = true) (hs : strTruthy data.senderId = true)
    (hu : strTruthy data.userId = true) (hc : data.chatId.truthy = true) :
    (postMessage data s).result =
      .ok (PostResult.mk "new message" data.chatId (mkId s.nextId)) ∧
    (postMessage data s).store.docs =
      s.docs ++ [StoredMsg.mk (data.userId.getD "") data.chatId.toStr (mkId s.nextId)
        (MsgDoc.mk (data.senderId.getD "") (data.text.getD "") s.clock)] := by
  rw [postMessage_valid_eq data s ht hs hu]
  simp [hc]

/-- Witness for C10 at a numeric `chatId`: the result carries the raw
number 5, the stored path segment carries the string "5". -/
theorem postMessage_chatId_unchanged_witness :
    (strTruthy (PostData.mk (some "u") (some "hi") (some "alice") (JVal.vnum 5)).text = true ∧
     strTruthy (PostData.mk (some "u") (some "hi") (some "alice") (JVal.vnum 5)).senderId = true ∧
     strTruthy (PostData.mk (some "u") (some "hi") (some "alice") (JVal.vnum 5)).userId = true ∧
     (PostData.mk (some "u") (some "hi") (some "alice") (JVal.vnum 5)).chatId.truthy = true) ∧
    ((postMessage (PostData.mk (some "u") (some "hi") (some "alice") (JVal.vnum 5))
        store0).result = .ok (PostResult.mk "new message" (JVal.vnum 5) (mkId 0)) ∧
     (postMessage (PostData.mk (some "u") (some "hi") (some "alice") (JVal.vnum 5))
        store0).store.docs =
      store0.docs ++ [StoredMsg.mk "u" "5" (mkId 0) (MsgDoc.mk "alice" "hi" 0)]) :=
  ⟨⟨rfl, rfl, rfl, rfl⟩,
    postMessage_chatId_unchanged (PostData.mk (some "u") (some "hi") (some "alice") (JVal.vnum 5))
      store0 rfl rfl rfl rfl⟩

/-- C8: chat isolation — for one user and two distinct chat identifiers,
posting a message under the first chat leaves the `getChat` response of the
second chat exactly as it was before the post, so the created message never
appears under the other chat. -/
theorem postMessage_chat_isolation (data : PostData) (s : Store) (a b : String)
    (hca : data.chatId = JVal.vstr a) (ha : a.isEmpty = false) (hne : a ≠ b)
    (ht : strTruthy data.text = true) (hs : strTruthy data.senderId = true)
    (hu : strTruthy data.userId = true) :
    (getChat (Query.mk data.userId (some b)) (postMessage data s).store).result =
      (getChat (Query.mk data.userId (some b)) s).result := by
  have hct : data.chatId.truthy = true := by
    rw [hca]
    simp [JVal.truthy, ha]
  obtain ⟨u, hueq, hune⟩ := strTruthy_eq_some data.userId hu
  rw [postMessage_valid_eq data s ht hs hu, hueq]
  by_cases hb : b.isEmpty = true
  · rw [getChat_invalid_outcome _ _ (by simp [strTruthy, hb]),
      getChat_invalid_outcome _ _ (by simp [strTruthy, hb])]
  · rw [Bool.not_eq_true] at hb
    rw [getChat_valid_eq u b _ hune hb, getChat_valid_eq u b s hune hb]
    have hab : (a == b) = false := beq_eq_false_iff_ne.mpr hne
    simp [hct, hca, ha, JVal.truthy, JVal.toStr, chatDocs, List.filter_append,
      List.filter_cons, inChat, hab, hne]

/-- Witness for C8: the message posted to chat "A" is invisible to
`getChat` on chat "B". -/
theorem postMessage_chat_isolation_witness :
    ((PostData.mk (some "u") (some "hi") (some "alice") (JVal.vstr "A")).chatId =
        JVal.vstr "A" ∧
      "A".isEmpty = false ∧ "A" ≠ "B" ∧
      strTruthy (PostData.mk (some "u") (some "hi") (some "alice") (JVal.vstr "A")).text = true ∧
      strTruthy (PostData.mk (some "u") (some "hi") (some "alice") (JVal.vstr "A")).senderId =
        true ∧
      strTruthy (PostData.mk (some "u") (some "hi") (some "alice") (JVal.vstr "A")).userId =
        true) ∧
    (getChat (Query.mk (some "u") (some "B"))
        (postMessage (PostData.mk (some "u") (some "hi") (some "alice") (JVal.vstr "A"))
          store1).store).result =
      (getChat (Query.mk (some "u") (some "B")) store1).result :=
  ⟨⟨rfl, rfl, by decide, rfl, rfl, rfl⟩,
    postMessage_chat_isolation
      (PostData.mk (some "u") (some "hi") (some "alice") (JVal.vstr "A")) store1 "A" "B"
      rfl rfl (by decide) rfl rfl rfl⟩

/-- C4: for every valid input with a falsy `chatId` and a store in which
the freshly generated chat identifier is unused, `postMessage` returns the
store-generated `chatId` and `messageId`, and a subsequent `getChat` with
the posting user and the returned chat identifier returns exactly one
message whose `senderId` and `text` equal the input. -/
theorem postMessage_generated_chat_roundtrip (data : PostData) (s : Store)
    (ht : strTruthy data.text = true) (hs : strTruthy data.senderId = true)
    (hu : strTruthy data.userId = true) (hc : data.chatId.truthy = false)
    (hfresh : chatDocs (data.userId.getD "") (mkId s.nextId) s.docs = []) :
    (postMessage data s).result =
      .ok (PostResult.mk "new message" (JVal.vstr (mkId s.nextId)) (mkId (s.nextId + 1))) ∧
    (getChat (Query.mk data.userId (some (mkId s.nextId))) (postMessage data s).store).result =
      .ok (GetResult.mk 200 "successfully got chat messages"
        [MsgDoc.mk (data.senderId.getD "") (data.text.getD "") s.clock]) := by
  obtain ⟨u, hueq, hune⟩ := strTruthy_eq_some data.userId hu
  rw [postMessage_valid_eq data s ht hs hu, hueq]
  constructor
  · simp [hc]
  · rw [getChat_valid_eq u (mkId s.nextId) _ hune (mkId_isEmpty _)]
    rw [hueq] at hfresh
    simp only [chatDocs, Option.getD_some] at hfresh
    simp [hc, chatDocs, List.filter_append, List.filter_cons, inChat, JVal.toStr, hfresh]

/-- Witness for C4 at a concrete valid input with no `chatId` on the empty
store. -/
theorem postMessage_generated_chat_roundtrip_witness :
    (strTruthy (PostData.mk (some "u") (some "hi") (some "alice") JVal.undef).text = true ∧
     strTruthy (PostData.mk (some "u") (some "hi") (some "alice") JVal.undef).senderId = true ∧
     strTruthy (PostData.mk (some "u") (some "hi") (some "alice") JVal.undef).userId = true ∧
     (PostData.mk (some "u") (some "hi") (some "alice") JVal.undef).chatId.truthy = false ∧
     chatDocs "u" (mkId 0) store0.docs = []) ∧
    ((postMessage (PostData.mk (some "u") (some "hi") (some "alice") JVal.undef)
        store0).result =
      .ok (PostResult.mk "new message" (JVal.vstr (mkId 0)) (mkId 1)) ∧
     (getChat (Query.mk (some "u") (some (mkId 0)))
        (postMessage (PostData.mk (some "u") (some "hi") (some "alice") JVal.undef)
          store0).store).result =
      .ok (GetResult.mk 200 "successfully got chat messages" [MsgDoc.mk "alice" "hi" 0])) :=
  ⟨⟨rfl, rfl, rfl, rfl, rfl⟩,
    postMessage_generated_chat_roundtrip
      (PostData.mk (some "u") (some "hi") (some "alice") JVal.undef) store0 rfl rfl rfl rfl rfl⟩

/-- C5: for every chat, a successful `deleteChat` removes all N message
documents of the chat — its trace holds exactly N batched deletes and one
batch commit — returns HTTP 200 with
`{status: "successfully deleted chat messages"}`, and a subsequent
`getChat` on the same user and chat returns HTTP 200 with an empty message
sequence. -/
theorem deleteChat_batch_removes_all (uid cid : String) (s : Store)
    (hu : uid.isEmpty = false) (hc : cid.isEmpty = false) :
    (deleteChat (Query.mk (some uid) (some cid)) s).result =
      .ok (DeleteResult.mk 200 "successfully deleted chat messages") ∧
    delCount (deleteChat (Query.mk (some uid) (some cid)) s).trace =
      (chatDocs uid cid s.docs).length ∧
    commitCount (deleteChat (Query.mk (some uid) (some cid)) s).trace = 1 ∧
    chatDocs uid cid (deleteChat (Query.mk (some uid) (some cid)) s).store.docs = [] ∧
    (getChat (Query.mk (some uid) (some cid))
        (deleteChat (Query.mk (some uid) (some cid)) s).store).result =
      .ok (GetResult.mk 200 "successfully got chat messages" []) := by
  rw [deleteChat_valid_eq uid cid s hu hc]
  refine ⟨rfl, ?_, ?_, ?_, ?_⟩
  · exact delCount_del_trace _ _ _
  · exact commitCount_del_trace _ _ _
  · exact filter_after_filter_not (inChat uid cid) s.docs
  · rw [getChat_valid_eq uid cid _ hu hc]
    simp [chatDocs, filter_after_filter_not]

/-- Witness for C5 on a store holding one message in the deleted chat. -/
theorem deleteChat_batch_removes_all_witness :
    ("u".isEmpty = false ∧ "c".isEmpty = false) ∧
    ((deleteChat (Query.mk (some "u") (some "c")) store1).result =
      .ok (DeleteResult.mk 200 "successfully deleted chat messages") ∧
     delCount (deleteChat (Query.mk (some "u") (some "c")) store1).trace =
      (chatDocs "u" "c" store1.docs).length ∧
     commitCount (deleteChat (Query.mk (some "u") (some "c")) store1).trace = 1 ∧
     chatDocs "u" "c" (deleteChat (Query.mk (some "u") (some "c")) store1).store.docs = [] ∧
     (getChat (Query.mk (some "u") (some "c"))
        (deleteChat (Query.mk (some "u") (some "c")) store1).store).result =
      .ok (GetResult.mk 200 "successfully got chat messages" [])) :=
  ⟨⟨rfl, rfl⟩, deleteChat_batch_removes_all "u" "c" store1 rfl rfl⟩

/-- C6: `deleteChat` is idempotent in effect — two successive calls on the
same user and chat both succeed, the second one performs zero batched
deletes and leaves the store exactly as the first left it; and on an
already-empty chat a single call succeeds trivially, with zero batched
deletes and an unchanged store. -/
theorem deleteChat_idempotent (uid cid : String) (s : Store)
    (hu : uid.isEmpty = false) (hc : cid.isEmpty = false) :
    (deleteChat (Query.mk (some uid) (some cid)) s).result =
      .ok (DeleteResult.mk 200 "successfully deleted chat messages") ∧
    (deleteChat (Query.mk (some uid) (some cid))
        (deleteChat (Query.mk (some uid) (some cid)) s).store).result =
      .ok (DeleteResult.mk 200 "successfully deleted chat messages") ∧
    (deleteChat (Query.mk (some uid) (some cid))
        (deleteChat (Query.mk (some uid) (some cid)) s).store).store =
      (deleteChat (Query.mk (some uid) (some cid)) s).store ∧
    delCount (deleteChat (Query.mk (some uid) (some cid))
        (deleteChat (Query.mk (some uid) (some cid)) s).store).trace = 0 ∧
    (chatDocs uid cid s.docs = [] →
      (deleteChat (Query.mk (some uid) (some cid)) s).store = s ∧
      delCount (deleteChat (Query.mk (some uid) (some cid)) s).trace = 0) := by
  have h1 := deleteChat_valid_eq uid cid s hu hc
  have h2 := deleteChat_valid_eq uid cid
    (Store.mk (s.docs.filter fun d => !inChat uid cid d) s.nextId s.clock) hu hc
  have hempty : chatDocs uid cid (s.docs.filter fun d => !inChat uid cid d) = [] :=
    filter_after_filter_not (inChat uid cid) s.docs
  simp only [h1, h2]
  refine ⟨trivial, trivial, ?_, ?_, ?_⟩
  · rw [filter_idem]
  · rw [hempty]
    rfl
  · intro hdocs
    have hkeep := filter_not_of_filter_nil (inChat uid cid) s.docs hdocs
    constructor
    · show Store.mk (s.docs.filter fun d => !inChat uid cid d) s.nextId s.clock = s
      rw [hkeep]
    · show delCount (StoreOp.read (chatPath uid cid) ::
          (chatDocs uid cid s.docs).map (fun d => StoreOp.del (msgPath uid cid d.messageId)) ++
          [StoreOp.commit]) = 0
      rw [hdocs]
      rfl

/-- Witness for C6 on a store holding one message in the deleted chat. -/
theorem deleteChat_idempotent_witness :
    ("u".isEmpty = false ∧ "c".isEmpty = false) ∧
    ((deleteChat (Query.mk (some "u") (some "c")) store1).result =
      .ok (DeleteResult.mk 200 "successfully deleted chat messages") ∧
     (deleteChat (Query.mk (some "u") (some "c"))
        (deleteChat (Query.mk (some "u") (some "c")) store1).store).result =
      .ok (DeleteResult.mk 200 "successfully deleted chat messages") ∧
     (deleteChat (Query.mk (some "u") (some "c"))
        (deleteChat (Query.mk (some "u") (some "c")) store1).store).store =
      (deleteChat (Query.mk (some "u") (some "c")) store1).store ∧
     delCount (deleteChat (Query.mk (some "u") (some "c"))
        (deleteChat (Query.mk (some "u") (some "c")) store1).store).trace = 0 ∧
     (chatDocs "u" "c" store1.docs = [] →
       (deleteChat (Query.mk (some "u") (some "c")) store1).store = store1 ∧
       delCount (deleteChat (Query.mk (some "u") (some "c")) store1).trace = 0)) :=
  ⟨⟨rfl, rfl⟩, deleteChat_idempotent "u" "c" store1 rfl rfl⟩
